import Mathlib

/-!
Shallow embedding of the single-file scraper `src/main.py` (class
`CurrentAffairsScraper` and the module-level helpers), together with proofs of
the spec's testable properties about it.

Modelling conventions:
* Python strings are `List Char` (`Text`); URLs stay as Lean `String`.
* A raised exception at an oracle boundary is `Option`/`Except` failure.
* External collaborators (translation providers, MongoDB dedup store, MySQL
  insert, Firebase notify, the HTTP fetcher) are oracles passed as arguments;
  the control flow around them is translated line by line from the source.
* `time.sleep` calls are recorded in event traces rather than performed.
-/

namespace GToday

/-- Python `str` modelled as a list of characters. -/
abbrev Text := List Char

/-- ASCII whitespace recognised by Python's regex class in `re.sub` and by
`str.strip`: space, tab, newline, carriage return, vertical tab, form feed. -/
def isSpace (c : Char) : Bool :=
  c = ' ' || c = '\t' || c = '\n' || c = '\r' || c = '\x0b' || c = '\x0c'

/-- The substitution `re.sub(r's+', ' ', text)` (whitespace class): each
maximal run of whitespace characters is replaced by a single space.  The flag
records whether we are inside a whitespace run already replaced. -/
def collapseAux : Bool → Text → Text
  | _, [] => []
  | inRun, c :: cs =>
    if isSpace c then
      if inRun then collapseAux true cs else ' ' :: collapseAux true cs
    else c :: collapseAux false cs

/-- Python `str.strip()`: drop whitespace from both ends. -/
def stripText (s : Text) : Text :=
  ((s.dropWhile isSpace).reverse.dropWhile isSpace).reverse

/-- `CurrentAffairsScraper.clean_text` (src/main.py:214-215):
`re.sub` of the whitespace class to a single space, then `.strip()`. -/
def clean_text (s : Text) : Text :=
  stripText (collapseAux false s)

/-- Every whitespace character occurring in `s` is a plain space. -/
def wsOnlyPlainSpace (s : Text) : Bool :=
  s.all fun c => !isSpace c || c = ' '

/-- No two adjacent characters of `s` are both whitespace. -/
def noConsecSpace : Text → Bool
  | [] => true
  | [_] => true
  | c1 :: c2 :: rest => (!(isSpace c1 && isSpace c2)) && noConsecSpace (c2 :: rest)

/-- The first character, if any, is not whitespace. -/
def headNotSpace : Text → Bool
  | [] => true
  | c :: _ => !isSpace c

/-- "Already normalized": all whitespace runs collapsed to single spaces and
both ends trimmed. -/
def isNormalized (s : Text) : Bool :=
  wsOnlyPlainSpace s && noConsecSpace s && headNotSpace s && headNotSpace s.reverse

lemma collapseAux_of_normed (s : Text) (h1 : wsOnlyPlainSpace s = true)
    (h2 : noConsecSpace s = true) :
    collapseAux false s = s ∧ (headNotSpace s = true → collapseAux true s = s) := by
  induction s with
  | nil => exact ⟨rfl, fun _ => rfl⟩
  | cons c cs ih =>
    have h1' : (isSpace c = false ∨ c = ' ') ∧ ∀ x ∈ cs, isSpace x = false ∨ x = ' ' := by
      simpa [wsOnlyPlainSpace] using h1
    have h1cs : wsOnlyPlainSpace cs = true := by
      simp only [wsOnlyPlainSpace, List.all_eq_true]
      intro x hx
      rcases h1'.2 x hx with h | h
      · simp [h]
      · simp [h]
    have h2cs : noConsecSpace cs = true := by
      cases cs with
      | nil => rfl
      | cons d ds =>
        have := h2
        simp only [noConsecSpace, Bool.and_eq_true] at this
        exact this.2
    have ih' := ih h1cs h2cs
    by_cases hc : isSpace c = true
    · have hc' : c = ' ' := by
        rcases h1'.1 with h | h
        · rw [hc] at h
          cases h
        · exact h
      have hhead : headNotSpace cs = true := by
        cases cs with
        | nil => rfl
        | cons d ds =>
          have := h2
          simp only [noConsecSpace, Bool.and_eq_true, Bool.not_eq_true',
            Bool.and_eq_false_iff] at this
          rcases this.1 with h | h
          · rw [hc] at h
            cases h
          · simp [headNotSpace, h]
      subst hc'
      refine ⟨?_, ?_⟩
      · simp [collapseAux, hc, ih'.2 hhead]
      · intro hh
        simp [headNotSpace, hc] at hh
    · have hc0 : isSpace c = false := by
        simpa using hc
      refine ⟨?_, fun _ => ?_⟩
      · simp [collapseAux, hc0, ih'.1]
      · simp [collapseAux, hc0, ih'.1]

lemma dropWhile_eq_self_of_headNotSpace (s : Text) (h : headNotSpace s = true) :
    s.dropWhile isSpace = s := by
  cases s with
  | nil => rfl
  | cons c cs =>
    simp [headNotSpace] at h
    simp [List.dropWhile_cons, h]

lemma stripText_of_normed (s : Text) (h1 : headNotSpace s = true)
    (h2 : headNotSpace s.reverse = true) : stripText s = s := by
  unfold stripText
  rw [dropWhile_eq_self_of_headNotSpace s h1,
    dropWhile_eq_self_of_headNotSpace s.reverse h2, List.reverse_reverse]

/-- C9: Text normalization is idempotent: `clean_text` applied to an
already-normalized string (all whitespace runs collapsed to single spaces,
ends trimmed) returns it unchanged. -/
theorem clean_text_idempotent_on_normalized (s : Text) (h : isNormalized s = true) :
    clean_text s = s := by
  have h' := h
  simp [isNormalized, Bool.and_eq_true] at h'
  obtain ⟨⟨⟨hws, hcs⟩, hhd⟩, htl⟩ := h'
  unfold clean_text
  rw [(collapseAux_of_normed s hws hcs).1, stripText_of_normed s hhd htl]

/-- Witness for C9 at the concrete normalized string "ab c d". -/
theorem clean_text_idempotent_on_normalized_witness :
    clean_text ['a', 'b', ' ', 'c', ' ', 'd'] = ['a', 'b', ' ', 'c', ' ', 'd'] :=
  clean_text_idempotent_on_normalized ['a', 'b', ' ', 'c', ' ', 'd'] (by decide)

/-! ## Translation engine (`CurrentAffairsScraper.safe_translate`, src/main.py:217-235) -/

/-- The three translation providers tried in order on each pass:
`A` = GoogleTranslator (deep_translator), `B` = MyMemoryTranslator,
`C` = googletrans `Translator`. -/
inductive Provider
  | A
  | B
  | C
deriving DecidableEq, Repr

/-- Observable events of one `safe_translate` call: a provider invocation, or
the `time.sleep(self.retry_delay)` taken after a fully failed pass. -/
inductive TransEvent
  | call (p : Provider)
  | sleep
deriving DecidableEq, Repr

/-- Oracle for the providers: the outcome of invoking provider `p` during pass
number `attempt`; `none` models the provider raising an exception (each call
site in the source is wrapped in `try/except Exception`). -/
def ProviderOracle := Nat → Provider → Option Text

/-- Result of `safe_translate`: the returned pair `(ok, text)` plus the trace
of provider invocations and sleeps, in order. -/
structure TransOutcome where
  ok : Bool
  result : Text
  events : List TransEvent
deriving DecidableEq, Repr

/-- The `for attempt in range(self.translation_retries)` loop of
`safe_translate`: on each pass try provider A; on exception try B; on
exception try C; on exception log, sleep `retry_delay`, and start the next
pass.  Falling off the loop returns `(False, "")`. -/
def safeTranslateAux (prov : ProviderOracle) : Nat → Nat → TransOutcome
  | _, 0 => ⟨false, [], []⟩
  | attempt, n + 1 =>
    match prov attempt Provider.A with
    | some t => ⟨true, t, [TransEvent.call Provider.A]⟩
    | none =>
      match prov attempt Provider.B with
      | some t => ⟨true, t, [TransEvent.call Provider.A, TransEvent.call Provider.B]⟩
      | none =>
        match prov attempt Provider.C with
        | some t =>
            ⟨true, t, [TransEvent.call Provider.A, TransEvent.call Provider.B,
              TransEvent.call Provider.C]⟩
        | none =>
            let rest := safeTranslateAux prov (attempt + 1) n
            ⟨rest.ok, rest.result,
              [TransEvent.call Provider.A, TransEvent.call Provider.B,
                TransEvent.call Provider.C, TransEvent.sleep] ++ rest.events⟩

/-- `CurrentAffairsScraper.safe_translate` with `translation_retries` passes
(the constructor sets `self.translation_retries = 3`). -/
def safe_translate (prov : ProviderOracle) (translation_retries : Nat) : TransOutcome :=
  safeTranslateAux prov 0 translation_retries

/-- The event trace of one fully failed pass. -/
def failedPassEvents : List TransEvent :=
  [TransEvent.call Provider.A, TransEvent.call Provider.B,
    TransEvent.call Provider.C, TransEvent.sleep]

lemma safeTranslateAux_all_fail (prov : ProviderOracle)
    (h : ∀ a p, prov a p = none) :
    ∀ n attempt, safeTranslateAux prov attempt n =
      ⟨false, [], (List.replicate n failedPassEvents).flatten⟩ := by
  intro n
  induction n with
  | zero => intro attempt; rfl
  | succ m ih =>
    intro attempt
    simp only [safeTranslateAux, h, ih (attempt + 1)]
    simp [failedPassEvents, List.replicate]

/-- C3: when every provider fails on every pass, `translate` returns failure
with an empty result string after exactly `translation_retries` full passes
through the chain — with the default of 3 passes, nine provider invocations in
A, B, C order — and a retry-delay sleep separates (and follows) the passes.
No provider exception escapes: the call still returns an `(ok, text)` pair. -/
theorem translate_all_fail (prov : ProviderOracle) (n : Nat)
    (h : ∀ a p, prov a p = none) :
    safe_translate prov n = ⟨false, [], (List.replicate n failedPassEvents).flatten⟩ ∧
    safe_translate prov 3 =
      ⟨false, [], failedPassEvents ++ failedPassEvents ++ failedPassEvents⟩ := by
  refine ⟨safeTranslateAux_all_fail prov h n 0, ?_⟩
  rw [safe_translate, safeTranslateAux_all_fail prov h 3 0]
  simp [List.replicate]

/-- Witness for C3: all providers always failing, three passes. -/
theorem translate_all_fail_witness :
    safe_translate (fun _ _ => none) 3 =
      ⟨false, [], failedPassEvents ++ failedPassEvents ++ failedPassEvents⟩ :=
  (translate_all_fail (fun _ _ => none) 3 (fun _ _ => rfl)).2

/-- C4: on a pass, provider A is tried first; if A raises, B is tried within
the same pass, then C; the first success is returned with no further provider
calls.  In particular when A and B fail and C succeeds on the first pass, the
call returns success with C's output after exactly one call to each of A, B, C. -/
theorem translate_provider_order (prov : ProviderOracle) (t : Text) :
    (prov 0 Provider.A = some t →
      safe_translate prov 3 = ⟨true, t, [TransEvent.call Provider.A]⟩) ∧
    (prov 0 Provider.A = none → prov 0 Provider.B = some t →
      safe_translate prov 3 =
        ⟨true, t, [TransEvent.call Provider.A, TransEvent.call Provider.B]⟩) ∧
    (prov 0 Provider.A = none → prov 0 Provider.B = none → prov 0 Provider.C = some t →
      safe_translate prov 3 =
        ⟨true, t, [TransEvent.call Provider.A, TransEvent.call Provider.B,
          TransEvent.call Provider.C]⟩) := by
  refine ⟨fun hA => ?_, fun hA hB => ?_, fun hA hB hC => ?_⟩
  · simp [safe_translate, safeTranslateAux, hA]
  · simp [safe_translate, safeTranslateAux, hA, hB]
  · simp [safe_translate, safeTranslateAux, hA, hB, hC]

/-- Witness for C4: A and B fail, C succeeds with output "x" on pass one. -/
theorem translate_provider_order_witness :
    safe_translate
        (fun _ p => match p with
          | Provider.C => some ['x']
          | _ => none) 3 =
      ⟨true, ['x'], [TransEvent.call Provider.A, TransEvent.call Provider.B,
        TransEvent.call Provider.C]⟩ :=
  (translate_provider_order
    (fun _ p => match p with
      | Provider.C => some ['x']
      | _ => none) ['x']).2.2 rfl rfl rfl

/-! ## Deduplication store (`is_url_scraped`, `log_url_to_mongodb`,
src/main.py:175-199) -/

/-- One document inserted into the `scraped_urls` collection (the
`datetime.now(timezone.utc)` timestamp field is real time and is omitted). -/
structure DedupEntry where
  url : String
  status : String
deriving DecidableEq, Repr

/-- The query facet of the MongoDB collection: `none` models
`collection is None` (store unavailable); otherwise `find url` is
`collection.find_one({"url": url}) is not None`, with `Except.error` modelling
a raised exception. -/
def DedupFind := Option (String → Except Unit Bool)

/-- The insert facet of the MongoDB collection: `none` models
`collection is None`; otherwise `ins entry` is `collection.insert_one(...)`,
with `Except.error` modelling a raised exception. -/
def DedupInsert := Option (DedupEntry → Except Unit Unit)

/-- `is_url_scraped` (src/main.py:189-199): returns whether a document for the
URL exists; `False` when the collection is `None`, and `False` when the query
raises (the `except Exception` branch). -/
def is_url_scraped (collection : DedupFind) (url : String) : Bool :=
  match collection with
  | none => false
  | some find =>
    match find url with
    | Except.ok b => b
    | Except.error _ => false

/-- `log_url_to_mongodb` (src/main.py:175-187): inserts a `{url, status}`
document when the collection is available; any exception is caught and
swallowed.  The result is the list of documents actually written (empty when
the store is unavailable or the insert raised) — the function itself never
fails. -/
def log_url_to_mongodb (collection : DedupInsert) (url : String) (status : String) :
    List DedupEntry :=
  match collection with
  | none => []
  | some ins =>
    match ins ⟨url, status⟩ with
    | Except.ok _ => [⟨url, status⟩]
    | Except.error _ => []

/-! ## URL discovery (`CurrentAffairsScraper.get_article_urls`,
src/main.py:237-265) -/

/-- A `<h1 id="list">` heading on a listing page; `anchor` is the `href` of
its first inner `<a>`, or `none` when `a.find('a')` is falsy. -/
structure Heading where
  anchor : Option String
deriving DecidableEq, Repr

/-- Outcome of one application-level fetch attempt of a listing page:
a successful parse with the matching headings, a `requests.RequestException`
(raised by `get` or `raise_for_status`), or any other exception. -/
inductive ListingFetch
  | ok (headings : List Heading)
  | reqErr
  | otherErr
deriving DecidableEq, Repr

/-- The `for attempt in range(max_retries)` loop of `get_article_urls`, with
`max_retries = 3`: on success collect the headings' anchor `href`s in document
order (headings without an inner anchor are skipped by the comprehension's
`if a.find('a')` guard), then filter out already-scraped URLs when the store
is available; on `RequestException` sleep and retry unless this was the last
attempt, in which case return `[]`; on any other exception return `[]` at
once. -/
def getArticleUrlsAux (attempts : Nat → ListingFetch) (collection : DedupFind) :
    Nat → Nat → List String
  | _, 0 => []
  | attempt, n + 1 =>
    match attempts attempt with
    | ListingFetch.ok headings =>
      let urls := headings.filterMap fun a => a.anchor
      match collection with
      | some find => urls.filter fun u => !is_url_scraped (some find) u
      | none => urls
    | ListingFetch.reqErr =>
      if n = 0 then [] else getArticleUrlsAux attempts collection (attempt + 1) n
    | ListingFetch.otherErr => []

/-- `CurrentAffairsScraper.get_article_urls` for one listing page, driven by
the per-attempt fetch oracle. -/
def get_article_urls (attempts : Nat → ListingFetch) (collection : DedupFind) :
    List String :=
  getArticleUrlsAux attempts collection 0 3

/-- C8: discovery returns, in document order, the `href` of the inner anchor
of each matching heading, skipping headings with no inner anchor; with the
store available it filters out seen URLs, preserving the relative order of the
rest (so every returned URL is unseen); zero matching headings yield `[]`; and
three failed application-level attempts yield `[]`, never an error. -/
theorem discover_behavior (attempts : Nat → ListingFetch) (collection : DedupFind)
    (headings : List Heading) :
    (attempts 0 = ListingFetch.ok headings → collection = none →
      get_article_urls attempts collection = headings.filterMap fun a => a.anchor) ∧
    (∀ find, attempts 0 = ListingFetch.ok headings → collection = some find →
      get_article_urls attempts collection =
        (headings.filterMap fun a => a.anchor).filter
          fun u => !is_url_scraped (some find) u) ∧
    (∀ find u, attempts 0 = ListingFetch.ok headings → collection = some find →
      u ∈ get_article_urls attempts collection → is_url_scraped (some find) u = false) ∧
    (attempts 0 = ListingFetch.ok [] → get_article_urls attempts collection = []) ∧
    (attempts 0 = ListingFetch.reqErr → attempts 1 = ListingFetch.reqErr →
      attempts 2 = ListingFetch.reqErr → get_article_urls attempts collection = []) := by
  refine ⟨fun h0 hc => ?_, fun find h0 hc => ?_, fun find u h0 hc hu => ?_,
    fun h0 => ?_, fun h0 h1 h2 => ?_⟩
  · simp [get_article_urls, getArticleUrlsAux, h0, hc]
  · simp [get_article_urls, getArticleUrlsAux, h0, hc]
  · have := hu
    rw [get_article_urls] at this
    simp only [getArticleUrlsAux, h0, hc] at this
    have := List.of_mem_filter this
    simpa using this
  · cases collection with
    | none => simp [get_article_urls, getArticleUrlsAux, h0]
    | some find => simp [get_article_urls, getArticleUrlsAux, h0]
  · simp [get_article_urls, getArticleUrlsAux, h0, h1, h2]

/-- Witness for C8: one page with two good headings and one anchorless one,
one URL already seen. -/
theorem discover_behavior_witness :
    get_article_urls
        (fun _ => ListingFetch.ok [⟨some "u1"⟩, ⟨none⟩, ⟨some "u2"⟩])
        (some fun u => Except.ok (u = "u1")) = ["u2"] := by
  have := (discover_behavior
    (fun _ => ListingFetch.ok [⟨some "u1"⟩, ⟨none⟩, ⟨some "u2"⟩])
    (some fun u => Except.ok (u = "u1"))
    [⟨some "u1"⟩, ⟨none⟩, ⟨some "u2"⟩]).2.1
    (fun u => Except.ok (u = "u1")) rfl rfl
  rw [this]
  decide

/-- C6: when the deduplication store is unavailable — or a store operation
itself raises — `hasSeen` (`is_url_scraped`) returns false for every URL,
`record` (`log_url_to_mongodb`) is a no-op that never raises, and discovery
returns the collected URL list unfiltered rather than blocking the pipeline. -/
theorem dedup_degrades_permissively (find : String → Except Unit Bool)
    (ins : DedupEntry → Except Unit Unit) (url status : String)
    (attempts : Nat → ListingFetch) (headings : List Heading) :
    (is_url_scraped none url = false) ∧
    (find url = Except.error () → is_url_scraped (some find) url = false) ∧
    (log_url_to_mongodb none url status = []) ∧
    (ins ⟨url, status⟩ = Except.error () →
      log_url_to_mongodb (some ins) url status = []) ∧
    (attempts 0 = ListingFetch.ok headings →
      get_article_urls attempts none = headings.filterMap fun a => a.anchor) ∧
    ((∀ u, find u = Except.error ()) → attempts 0 = ListingFetch.ok headings →
      get_article_urls attempts (some find) = headings.filterMap fun a => a.anchor) := by
  refine ⟨rfl, fun h => ?_, rfl, fun h => ?_, fun h0 => ?_, fun hall h0 => ?_⟩
  · simp [is_url_scraped, h]
  · simp [log_url_to_mongodb, h]
  · simp [get_article_urls, getArticleUrlsAux, h0]
  · simp [get_article_urls, getArticleUrlsAux, h0, is_url_scraped, hall,
      List.filter_eq_self]

/-- Witness for C6: an always-erroring store behaves as if absent. -/
theorem dedup_degrades_permissively_witness :
    is_url_scraped (some fun _ => Except.error ()) "u" = false ∧
    log_url_to_mongodb (some fun _ => Except.error ()) "u" "scraped" = [] ∧
    get_article_urls (fun _ => ListingFetch.ok [⟨some "u"⟩])
      (some fun _ => Except.error ()) = ["u"] := by
  refine ⟨?_, ?_, ?_⟩
  · exact (dedup_degrades_permissively (fun _ => Except.error ())
      (fun _ => Except.error ()) "u" "scraped"
      (fun _ => ListingFetch.ok [⟨some "u"⟩]) [⟨some "u"⟩]).2.1 rfl
  · exact (dedup_degrades_permissively (fun _ => Except.error ())
      (fun _ => Except.error ()) "u" "scraped"
      (fun _ => ListingFetch.ok [⟨some "u"⟩]) [⟨some "u"⟩]).2.2.2.1 rfl
  · exact (dedup_degrades_permissively (fun _ => Except.error ())
      (fun _ => Except.error ()) "u" "scraped"
      (fun _ => ListingFetch.ok [⟨some "u"⟩]) [⟨some "u"⟩]).2.2.2.2.2
      (fun _ => rfl) rfl

/-! ## Article extraction (`CurrentAffairsScraper.extract_content`,
src/main.py:267-311) -/

/-- What one article page offers after fetch + parse.  `fetchOk = false`
models `self.requests.get` (or parsing) raising, which the loop body's
`except Exception` turns into `continue`.  `featuredImage` is whether
`soup.find('div', class_='featured_image', ...)` found the content-region
marker; `titleText`/`paraText` are the raw texts of the title element and the
first following paragraph, `none` when the element is missing. -/
structure ArticleInput where
  fetchOk : Bool
  featuredImage : Bool
  titleText : Option Text
  paraText : Option Text
deriving DecidableEq, Repr

/-- The tuple appended to `articles_data` on success:
`(original_title, original_paragraph, gujarati_title, gujarati_paragraph)`. -/
structure ArticleRecord where
  original_title : Text
  original_paragraph : Text
  translated_title : Text
  translated_paragraph : Text
deriving DecidableEq, Repr

/-- Oracle for `safe_translate`'s outcome on a given input text: the returned
`(ok, translated)` pair. -/
def TransFn := Text → Bool × Text

/-- Outcome of one iteration of the `for index, article_url in enumerate`
loop: the record appended (if any), how many `safe_translate` calls were made,
whether the success-path `time.sleep(1)` ran, and the `scraped` dedup
documents written. -/
structure StepResult where
  record : Option ArticleRecord
  transCalls : Nat
  slept : Bool
  scrapedWrites : List DedupEntry
deriving DecidableEq, Repr

/-- One iteration of the extraction loop, translated from the body of
`extract_content`:
fetch the page; skip when the featured-image section, the title element, or
the following paragraph is missing — each before any translation call; skip
when either translation fails; on success append the record, log a `scraped`
dedup entry, and sleep 1 second. -/
def processArticle (fetch : String → ArticleInput) (store : DedupInsert)
    (tr : TransFn) (url : String) : StepResult :=
  let a := fetch url
  if a.fetchOk = false then ⟨none, 0, false, []⟩
  else if a.featuredImage = false then ⟨none, 0, false, []⟩
  else
    match a.titleText with
    | none => ⟨none, 0, false, []⟩
    | some t0 =>
      match a.paraText with
      | none => ⟨none, 0, false, []⟩
      | some p0 =>
        let original_title := clean_text t0
        let original_paragraph := clean_text p0
        let r1 := tr original_title
        if r1.1 = false then ⟨none, 1, false, []⟩
        else
          let r2 := tr original_paragraph
          if r2.1 = false then ⟨none, 2, false, []⟩
          else
            ⟨some ⟨original_title, original_paragraph, r1.2, r2.2⟩, 2, true,
              log_url_to_mongodb store url "scraped"⟩

/-- Aggregate outcome of `extract_content` on a URL list. -/
structure ExtractResult where
  records : List ArticleRecord
  transCalls : Nat
  articleSleeps : Nat
  scrapedWrites : List DedupEntry
deriving DecidableEq, Repr

/-- `CurrentAffairsScraper.extract_content`: process the URLs sequentially,
accumulating the records in processing order; every failure path is a
`continue`, so no URL can abort the batch. -/
def extract_content (fetch : String → ArticleInput) (store : DedupInsert)
    (tr : TransFn) : List String → ExtractResult
  | [] => ⟨[], 0, 0, []⟩
  | url :: rest =>
    let s := processArticle fetch store tr url
    let r := extract_content fetch store tr rest
    ⟨s.record.toList ++ r.records, s.transCalls + r.transCalls,
      (if s.slept then 1 else 0) + r.articleSleeps,
      s.scrapedWrites ++ r.scrapedWrites⟩

lemma extract_content_records_eq (fetch : String → ArticleInput)
    (store : DedupInsert) (tr : TransFn) (urls : List String) :
    (extract_content fetch store tr urls).records =
      urls.filterMap fun u => (processArticle fetch store tr u).record := by
  induction urls with
  | nil => rfl
  | cons u rest ih =>
    simp only [extract_content, ih, List.filterMap_cons]
    cases (processArticle fetch store tr u).record <;> simp

/-- C7: an article page missing the content-region marker, the title element,
or the lead paragraph yields no record and zero translation calls; a failed
translation likewise yields no record (a record exists only when both
translations returned success, with exactly its translated fields); and the
batch never aborts: it returns, in processing order, the records of the URLs
that succeeded, so its length is at most the number of input URLs. -/
theorem extract_skips_and_never_aborts (fetch : String → ArticleInput)
    (store : DedupInsert) (tr : TransFn) (url : String) (urls : List String) :
    ((fetch url).featuredImage = false ∨ (fetch url).titleText = none ∨
        (fetch url).paraText = none →
      (processArticle fetch store tr url).record = none ∧
      (processArticle fetch store tr url).transCalls = 0) ∧
    (∀ t0 p0, (fetch url).titleText = some t0 → (fetch url).paraText = some p0 →
      (tr (clean_text t0)).1 = false →
      (processArticle fetch store tr url).record = none) ∧
    (∀ r, (processArticle fetch store tr url).record = some r →
      tr r.original_title = (true, r.translated_title) ∧
      tr r.original_paragraph = (true, r.translated_paragraph)) ∧
    ((extract_content fetch store tr urls).records =
      urls.filterMap fun u => (processArticle fetch store tr u).record) ∧
    ((extract_content fetch store tr urls).records.length ≤ urls.length) := by
  refine ⟨fun h => ?_, fun t0 p0 ht hp htr => ?_, fun r hr => ?_,
    extract_content_records_eq fetch store tr urls, ?_⟩
  · unfold processArticle
    rcases h with h | h | h
    · by_cases hf : (fetch url).fetchOk = false
      · simp [hf]
      · simp [hf, h]
    · by_cases hf : (fetch url).fetchOk = false
      · simp [hf]
      · by_cases hi : (fetch url).featuredImage = false
        · simp [hf, hi]
        · simp [hf, hi, h]
    · by_cases hf : (fetch url).fetchOk = false
      · simp [hf]
      · by_cases hi : (fetch url).featuredImage = false
        · simp [hf, hi]
        · cases hT : (fetch url).titleText with
          | none => simp [hf, hi, hT]
          | some t0 => simp [hf, hi, hT, h]
  · unfold processArticle
    by_cases hf : (fetch url).fetchOk = false
    · simp [hf]
    · by_cases hi : (fetch url).featuredImage = false
      · simp [hf, hi]
      · simp [hf, hi, ht, hp, htr]
  · by_cases hf : (fetch url).fetchOk = false
    · simp [processArticle, hf] at hr
    · by_cases hi : (fetch url).featuredImage = false
      · simp [processArticle, hf, hi] at hr
      · cases hT : (fetch url).titleText with
        | none => simp [processArticle, hf, hi, hT] at hr
        | some t0 =>
          cases hP : (fetch url).paraText with
          | none => simp [processArticle, hf, hi, hT, hP] at hr
          | some p0 =>
            by_cases h1 : (tr (clean_text t0)).1 = false
            · simp [processArticle, hf, hi, hT, hP, h1] at hr
            · by_cases h2 : (tr (clean_text p0)).1 = false
              · simp [processArticle, hf, hi, hT, hP, h1, h2] at hr
              · have h1' : (tr (clean_text t0)).1 = true := by
                  simpa using h1
                have h2' : (tr (clean_text p0)).1 = true := by
                  simpa using h2
                have hrec : (processArticle fetch store tr url).record =
                    some ⟨clean_text t0, clean_text p0, (tr (clean_text t0)).2,
                      (tr (clean_text p0)).2⟩ := by
                  simp [processArticle, hf, hi, hT, hP, h1, h2]
                have hr' : r = ⟨clean_text t0, clean_text p0, (tr (clean_text t0)).2,
                    (tr (clean_text p0)).2⟩ :=
                  Option.some_inj.mp (hr.symm.trans hrec)
                subst hr'
                refine ⟨?_, ?_⟩
                · rw [← h1']
                · rw [← h2']
  · rw [extract_content_records_eq]
    exact List.length_filterMap_le _ _

/-- Witness for C7: a page with no featured-image marker is skipped with no
translation calls; a working page produces its record. -/
theorem extract_skips_and_never_aborts_witness :
    (processArticle (fun _ => ⟨true, false, some ['t'], some ['p']⟩) none
        (fun t => (true, t)) "u").record = none ∧
    (processArticle (fun _ => ⟨true, false, some ['t'], some ['p']⟩) none
        (fun t => (true, t)) "u").transCalls = 0 :=
  (extract_skips_and_never_aborts (fun _ => ⟨true, false, some ['t'], some ['p']⟩)
    none (fun t => (true, t)) "u" []).1 (Or.inl rfl)

/-! ## Persistence (`insert_news`, src/main.py:147-173) and the coordinator
(`CurrentAffairsScraper.main`, src/main.py:481-533) -/

/-- Outcome of the database interaction inside one `insert_news` call:
`connFail` = `check_and_reconnect` returned `None` (its `except Error` arm),
`dbError` = `mysql.connector.Error` raised by `execute`/`commit`,
`ok id` = the insert succeeded with `cursor.lastrowid = id`. -/
inductive DbOutcome
  | connFail
  | dbError
  | ok (id : Nat)
deriving DecidableEq, Repr

/-- `insert_news` (src/main.py:147-173): returns `(True, news_id)` on success,
`(False, None)` when no connection could be obtained, and `(False, None)` from
the `except mysql.connector.Error` handler. -/
def insert_news (db : DbOutcome) : Bool × Option Nat :=
  match db with
  | DbOutcome.connFail => (false, none)
  | DbOutcome.dbError => (false, none)
  | DbOutcome.ok id => (true, some id)

/-- `format_news_content` (src/main.py:313-344), digest structure only: the
`enumerate(articles_data, 1)` loop emits one numbered card per record, in
order; the HTML/CSS wrapping around each `(idx, record)` pair is presentation
glue and is not modelled. -/
def format_news_content (records : List ArticleRecord) : List (Nat × ArticleRecord) :=
  records.enum.map fun p => (p.1 + 1, p.2)

/-- The `while page_number <= max_pages` loop of `main` (src/main.py:488-495):
per page call `get_article_urls`, extend `all_urls` (extending with an empty
list is the identity, so the `if article_urls` guard is behaviourally a
no-op), then `time.sleep(1)` unconditionally.  Returns the accumulated URLs
and the number of sleeps taken.  `pageAttempts p` is the fetch-attempt oracle
for listing page number `p`. -/
def pageLoop (pageAttempts : Nat → Nat → ListingFetch) (collection : DedupFind) :
    Nat → Nat → List String × Nat
  | _, 0 => ([], 0)
  | page, n + 1 =>
    let urls := get_article_urls (pageAttempts page) collection
    let rest := pageLoop pageAttempts collection (page + 1) n
    (urls ++ rest.1, 1 + rest.2)

/-- The working set `all_urls` accumulated over the 4 listing pages. -/
def discoveredUrls (pageAttempts : Nat → Nat → ListingFetch) (collection : DedupFind) :
    List String :=
  (pageLoop pageAttempts collection 1 4).1

/-- Number of page-pacing sleeps taken by the listing loop. -/
def pageSleepCount (pageAttempts : Nat → Nat → ListingFetch) (collection : DedupFind) :
    Nat :=
  (pageLoop pageAttempts collection 1 4).2

/-- The records extracted by one run: empty when discovery found nothing
(`extract_content` is then never called), else the batch extraction result. -/
def mainRecords (pageAttempts : Nat → Nat → ListingFetch) (collection : DedupFind)
    (store : DedupInsert) (fetch : String → ArticleInput) (tr : TransFn) :
    List ArticleRecord :=
  let all_urls := discoveredUrls pageAttempts collection
  if all_urls.isEmpty then []
  else (extract_content fetch store tr all_urls).records

/-- Observable outcome of one `main` run: pacing sleeps, the digest argument
of each `insert_news` call, the number of notification attempts, and the
`sent` dedup documents written. -/
structure MainResult where
  pageSleeps : Nat
  articleSleeps : Nat
  insertDigests : List (List (Nat × ArticleRecord))
  notifyCalls : Nat
  sentWrites : List DedupEntry
deriving DecidableEq, Repr

/-- `CurrentAffairsScraper.main` (src/main.py:481-533): discover 4 pages; if
any URLs were found, extract; if at least 3 records were produced, build the
digest and call `insert_news` once; on insert success call
`send_firebase_notification` once; only if the notification succeeded, write a
`sent` dedup entry for every URL of the working set; a failed notification is
logged and the run ends normally.  `notifyOk` is the notification
collaborator's outcome (that function catches its own exceptions and returns
a bool). -/
def mainRun (pageAttempts : Nat → Nat → ListingFetch) (collection : DedupFind)
    (store : DedupInsert) (fetch : String → ArticleInput) (tr : TransFn)
    (db : DbOutcome) (notifyOk : Bool) : MainResult :=
  let all_urls := discoveredUrls pageAttempts collection
  let pageSleeps := pageSleepCount pageAttempts collection
  if all_urls.isEmpty then ⟨pageSleeps, 0, [], 0, []⟩
  else
    let ext := extract_content fetch store tr all_urls
    if 3 ≤ ext.records.length then
      let digest := format_news_content ext.records
      let ins := insert_news db
      if ins.1 then
        if notifyOk then
          ⟨pageSleeps, ext.articleSleeps, [digest], 1,
            all_urls.foldr (fun u acc => log_url_to_mongodb store u "sent" ++ acc) []⟩
        else ⟨pageSleeps, ext.articleSleeps, [digest], 1, []⟩
      else ⟨pageSleeps, ext.articleSleeps, [digest], 0, []⟩
    else ⟨pageSleeps, ext.articleSleeps, [], 0, []⟩

lemma format_news_content_fst (records : List ArticleRecord) :
    (format_news_content records).map Prod.fst = List.range' 1 records.length := by
  have hcomp : (Prod.fst ∘ fun p : Nat × ArticleRecord => (p.1 + 1, p.2)) =
      (fun n => 1 + n) ∘ Prod.fst := by
    funext p
    simp [Nat.add_comm]
  rw [format_news_content, List.map_map, hcomp, ← List.map_map,
    List.enum_map_fst, List.range'_eq_map_range]

lemma format_news_content_snd (records : List ArticleRecord) :
    (format_news_content records).map Prod.snd = records := by
  have hcomp : (Prod.snd ∘ fun p : Nat × ArticleRecord => (p.1 + 1, p.2)) =
      Prod.snd := rfl
  rw [format_news_content, List.map_map, hcomp, List.enum_map_snd]

lemma mainRecords_of_not_empty (pageAttempts : Nat → Nat → ListingFetch)
    (collection : DedupFind) (store : DedupInsert) (fetch : String → ArticleInput)
    (tr : TransFn) (h : (discoveredUrls pageAttempts collection).isEmpty = false) :
    mainRecords pageAttempts collection store fetch tr =
      (extract_content fetch store tr (discoveredUrls pageAttempts collection)).records := by
  simp [mainRecords, h]

/-- C2: `insert_news` is called exactly once iff at least 3 records were
extracted; in that case the single digest argument numbers the records
consecutively from 1 in extraction order; with fewer than 3 records (for
example exactly 2) zero persistence calls and zero notification calls are
made. -/
theorem persistence_threshold (pageAttempts : Nat → Nat → ListingFetch)
    (collection : DedupFind) (store : DedupInsert) (fetch : String → ArticleInput)
    (tr : TransFn) (db : DbOutcome) (notifyOk : Bool) :
    ((mainRun pageAttempts collection store fetch tr db notifyOk).insertDigests.length =
      if 3 ≤ (mainRecords pageAttempts collection store fetch tr).length then 1 else 0) ∧
    (3 ≤ (mainRecords pageAttempts collection store fetch tr).length →
      (mainRun pageAttempts collection store fetch tr db notifyOk).insertDigests =
        [format_news_content (mainRecords pageAttempts collection store fetch tr)]) ∧
    ((format_news_content (mainRecords pageAttempts collection store fetch tr)).map
        Prod.fst =
      List.range' 1 (mainRecords pageAttempts collection store fetch tr).length) ∧
    ((format_news_content (mainRecords pageAttempts collection store fetch tr)).map
        Prod.snd =
      mainRecords pageAttempts collection store fetch tr) ∧
    ((mainRecords pageAttempts collection store fetch tr).length = 2 →
      (mainRun pageAttempts collection store fetch tr db notifyOk).insertDigests = [] ∧
      (mainRun pageAttempts collection store fetch tr db notifyOk).notifyCalls = 0) := by
  refine ⟨?_, ?_, format_news_content_fst _, format_news_content_snd _, ?_⟩ <;>
    by_cases he : (discoveredUrls pageAttempts collection).isEmpty
  · simp [mainRun, mainRecords, he]
  · rw [mainRecords_of_not_empty _ _ _ _ _ (by simpa using he)]
    by_cases h3 :
        3 ≤ (extract_content fetch store tr
          (discoveredUrls pageAttempts collection)).records.length
    · by_cases hi : (insert_news db).1 <;> by_cases hn : notifyOk = true <;>
        simp [mainRun, he, h3, hi, hn]
    · simp [mainRun, he, h3]
  · intro h3
    simp [mainRecords, he] at h3
  · rw [mainRecords_of_not_empty _ _ _ _ _ (by simpa using he)]
    intro h3
    by_cases hi : (insert_news db).1 <;> by_cases hn : notifyOk = true <;>
      simp [mainRun, he, h3, hi, hn]
  · intro h2
    simp [mainRun, mainRecords, he]
  · rw [mainRecords_of_not_empty _ _ _ _ _ (by simpa using he)]
    intro h2
    have h3 : ¬ 3 ≤ (extract_content fetch store tr
        (discoveredUrls pageAttempts collection)).records.length := by
      rw [h2]
      decide
    simp [mainRun, he, h3]

/-- Listing-page oracle for the concrete runs below: page 1 lists three
articles, the remaining pages are empty. -/
def demoPageAttempts : Nat → Nat → ListingFetch := fun page _ =>
  if page = 1 then ListingFetch.ok [⟨some "u1"⟩, ⟨some "u2"⟩, ⟨some "u3"⟩]
  else ListingFetch.ok []

/-- Article oracle: every page carries the marker, a title and a paragraph. -/
def demoFetch : String → ArticleInput := fun _ => ⟨true, true, some ['t'], some ['p']⟩

/-- Translation oracle that always succeeds with the input text. -/
def demoTr : TransFn := fun t => (true, t)

/-- A dedup-store insert facet that always succeeds. -/
def demoIns : DedupEntry → Except Unit Unit := fun _ => Except.ok ()

/-- Witness for C2: three extracted records lead to exactly one persistence
call carrying the numbered digest. -/
theorem persistence_threshold_witness :
    (mainRun demoPageAttempts none (some demoIns) demoFetch demoTr
        (DbOutcome.ok 7) true).insertDigests =
      [format_news_content (mainRecords demoPageAttempts none (some demoIns)
        demoFetch demoTr)] :=
  (persistence_threshold demoPageAttempts none (some demoIns) demoFetch demoTr
    (DbOutcome.ok 7) true).2.1 (by decide)

/-- C1 counterexample: a run in which persistence succeeds, the working set is
nonempty, but the notification fails, writes no `sent` dedup entry at all —
the commit is gated on the notification outcome (src/main.py:516-521), so it
is not performed "regardless of the notification outcome". -/
theorem sent_commit_blocked_on_notify_failure :
    (insert_news (DbOutcome.ok 7)).1 = true ∧
    discoveredUrls demoPageAttempts none ≠ [] ∧
    (mainRun demoPageAttempts none (some demoIns) demoFetch demoTr
      (DbOutcome.ok 7) false).insertDigests.length = 1 ∧
    (mainRun demoPageAttempts none (some demoIns) demoFetch demoTr
      (DbOutcome.ok 7) false).sentWrites = [] := by
  decide

lemma foldr_log_sent (ins : DedupEntry → Except Unit Unit)
    (hins : ∀ e, ins e = Except.ok ()) (urls : List String) :
    urls.foldr (fun u acc => log_url_to_mongodb (some ins) u "sent" ++ acc) [] =
      urls.map fun u => (⟨u, "sent"⟩ : DedupEntry) := by
  induction urls with
  | nil => rfl
  | cons u rest ih =>
    rw [List.foldr_cons, ih]
    simp [log_url_to_mongodb, hins]

/-- C1 amended: after persistence succeeds, the `sent` dedup commit for every
URL of the original working set (not only those that produced a record)
happens only when the notification also succeeds; a notification failure is
non-fatal — the one insert call stands and the run ends normally — but it
blocks the dedup commit: no `sent` entry is written. -/
theorem sent_commit_requires_notify_success (pageAttempts : Nat → Nat → ListingFetch)
    (collection : DedupFind) (ins : DedupEntry → Except Unit Unit)
    (fetch : String → ArticleInput) (tr : TransFn) (id : Nat) (notifyOk : Bool)
    (h3 : 3 ≤ (mainRecords pageAttempts collection (some ins) fetch tr).length)
    (hins : ∀ e, ins e = Except.ok ()) :
    (notifyOk = true →
      (mainRun pageAttempts collection (some ins) fetch tr (DbOutcome.ok id)
          notifyOk).sentWrites =
        (discoveredUrls pageAttempts collection).map fun u =>
          (⟨u, "sent"⟩ : DedupEntry)) ∧
    (notifyOk = false →
      (mainRun pageAttempts collection (some ins) fetch tr (DbOutcome.ok id)
          notifyOk).notifyCalls = 1 ∧
      (mainRun pageAttempts collection (some ins) fetch tr (DbOutcome.ok id)
          notifyOk).insertDigests.length = 1 ∧
      (mainRun pageAttempts collection (some ins) fetch tr (DbOutcome.ok id)
          notifyOk).sentWrites = []) := by
  by_cases he : (discoveredUrls pageAttempts collection).isEmpty
  · simp [mainRecords, he] at h3
  · rw [mainRecords_of_not_empty _ _ _ _ _ (by simpa using he)] at h3
    refine ⟨fun hn => ?_, fun hn => ?_⟩
    · simp [mainRun, he, h3, hn, insert_news, foldr_log_sent ins hins]
    · simp [mainRun, he, h3, hn, insert_news]

/-- Witness for C1 amended: insert succeeds, notification succeeds, and one
`sent` entry appears per working-set URL. -/
theorem sent_commit_requires_notify_success_witness :
    (mainRun demoPageAttempts none (some demoIns) demoFetch demoTr
        (DbOutcome.ok 7) true).sentWrites =
      (discoveredUrls demoPageAttempts none).map fun u =>
        (⟨u, "sent"⟩ : DedupEntry) :=
  (sent_commit_requires_notify_success demoPageAttempts none demoIns demoFetch
    demoTr 7 true (by decide) (fun _ => rfl)).1 rfl

/-- An article page whose content-region marker is missing: the loop body
hits the first `continue` and the iteration ends without the success-path
`time.sleep(1)`. -/
def noMarkerPage : ArticleInput := ⟨true, false, none, none⟩

/-- C5 counterexample: a one-URL batch whose iteration fails takes zero
article-pacing sleeps, not one per iteration — the `time.sleep(1)` at
src/main.py:307 sits on the success path only, after the record append, so it
is skipped by every `continue`. -/
theorem article_pacing_counterexample :
    (extract_content (fun _ => noMarkerPage) none (fun t => (true, t))
      ["u"]).articleSleeps ≠ (["u"] : List String).length := by
  decide

lemma processArticle_sleep_eq (fetch : String → ArticleInput) (store : DedupInsert)
    (tr : TransFn) (url : String) :
    ((if (processArticle fetch store tr url).slept then 1 else 0) : Nat) =
      (processArticle fetch store tr url).record.toList.length := by
  by_cases hf : (fetch url).fetchOk = false
  · simp [processArticle, hf]
  · by_cases hi : (fetch url).featuredImage = false
    · simp [processArticle, hf, hi]
    · cases hT : (fetch url).titleText with
      | none => simp [processArticle, hf, hi, hT]
      | some t0 =>
        cases hP : (fetch url).paraText with
        | none => simp [processArticle, hf, hi, hT, hP]
        | some p0 =>
          by_cases h1 : (tr (clean_text t0)).1 = false
          · simp [processArticle, hf, hi, hT, hP, h1]
          · by_cases h2 : (tr (clean_text p0)).1 = false
            · simp [processArticle, hf, hi, hT, hP, h1, h2]
            · simp [processArticle, hf, hi, hT, hP, h1, h2]

/-- C5 amended: the listing-page pacing delay is unconditional — one sleep per
page iteration, 4 in every run, regardless of each page's outcome — but the
article-loop pacing delay runs only on iterations that produce a record;
skipped or failed iterations move to the next URL without sleeping. -/
theorem pacing_page_unconditional_article_on_success
    (fetch : String → ArticleInput) (store : DedupInsert) (tr : TransFn)
    (urls : List String) (pageAttempts : Nat → Nat → ListingFetch)
    (collection : DedupFind) (db : DbOutcome) (notifyOk : Bool) :
    ((extract_content fetch store tr urls).articleSleeps =
      (extract_content fetch store tr urls).records.length) ∧
    (pageSleepCount pageAttempts collection = 4) ∧
    ((mainRun pageAttempts collection store fetch tr db notifyOk).pageSleeps = 4) := by
  have hp : pageSleepCount pageAttempts collection = 4 := by
    simp [pageSleepCount, pageLoop]
  refine ⟨?_, hp, ?_⟩
  · induction urls with
    | nil => rfl
    | cons u rest ih =>
      simp only [extract_content, List.length_append, ih,
        processArticle_sleep_eq fetch store tr u]
  · unfold mainRun
    by_cases he : (discoveredUrls pageAttempts collection).isEmpty
    · simp [he, hp]
    · by_cases h3 : 3 ≤ (extract_content fetch store tr
          (discoveredUrls pageAttempts collection)).records.length
      · by_cases hi : (insert_news db).1 <;> by_cases hn : notifyOk = true <;>
          simp [he, h3, hi, hn, hp]
      · simp [he, h3, hp]

/-- C10: `insert_news` is total at its boundary — every database outcome maps
to a returned pair, never a propagated exception; every error path yields
`(False, None)`; and a run whose insert returned failure makes no notification
call and writes no `sent` dedup entry. -/
theorem insert_news_total_boundary (db : DbOutcome)
    (pageAttempts : Nat → Nat → ListingFetch) (collection : DedupFind)
    (store : DedupInsert) (fetch : String → ArticleInput) (tr : TransFn)
    (notifyOk : Bool) :
    (insert_news DbOutcome.connFail = (false, none)) ∧
    (insert_news DbOutcome.dbError = (false, none)) ∧
    (∀ d, (∃ id, d = DbOutcome.ok id ∧ insert_news d = (true, some id)) ∨
      insert_news d = (false, none)) ∧
    ((insert_news db).1 = false →
      (mainRun pageAttempts collection store fetch tr db notifyOk).notifyCalls = 0 ∧
      (mainRun pageAttempts collection store fetch tr db notifyOk).sentWrites = []) := by
  refine ⟨rfl, rfl, fun d => ?_, fun hfail => ?_⟩
  · cases d with
    | connFail => exact Or.inr rfl
    | dbError => exact Or.inr rfl
    | ok id => exact Or.inl ⟨id, rfl, rfl⟩
  · unfold mainRun
    by_cases he : (discoveredUrls pageAttempts collection).isEmpty
    · simp [he]
    · by_cases h3 : 3 ≤ (extract_content fetch store tr
          (discoveredUrls pageAttempts collection)).records.length
      · simp [he, h3, hfail]
      · simp [he, h3]

/-- Witness for C10: a run whose insert hits a database error performs no
notification and writes no `sent` entry. -/
theorem insert_news_total_boundary_witness :
    (mainRun demoPageAttempts none (some demoIns) demoFetch demoTr
      DbOutcome.dbError true).notifyCalls = 0 ∧
    (mainRun demoPageAttempts none (some demoIns) demoFetch demoTr
      DbOutcome.dbError true).sentWrites = [] :=
  (insert_news_total_boundary DbOutcome.dbError demoPageAttempts none
    (some demoIns) demoFetch demoTr true).2.2.2 rfl

end GToday
